import Mathlib

/-!
# Page interaction script (`static/js/script.js`)

A shallow embedding of the four behaviours of the script: the image-upload
validator, the form-validation submit listener, the smooth-scroll click
listener and the alert auto-dismiss timer.  Browser objects are records, the
calls a handler makes on them are recorded in order, and a thrown exception is
an explicit completion value.
-/

namespace DeclaraSystem

/-! ## Image upload validation (`validateImageUpload`, lines 37-57) -/

/-- The fields of a browser `File` that the script reads. -/
structure File where
  name : String
  size : Nat
  type : String
deriving DecidableEq, Repr

/-- A file input: its `FileList` and its `value` attribute. -/
structure HTMLInputElement where
  files : List File
  value : String
deriving DecidableEq, Repr

/-- An observable action of `validateImageUpload`, in program order. -/
inductive Effect where
  | alert (message : String)
  | setValue (value : String)
deriving DecidableEq, Repr

/-- What a call of `validateImageUpload` leaves behind: the returned boolean,
the input afterwards and the actions performed. -/
structure UploadOutcome where
  result : Bool
  input : HTMLInputElement
  effects : List Effect
deriving DecidableEq, Repr

/-- The constant `maxSize` of line 39: `16 * 1024 * 1024`. -/
def maxSize : Nat := 16 * 1024 * 1024

/-- The constant `allowedTypes` of line 40. -/
def allowedTypes : List String := ["image/jpeg", "image/jpg", "image/png", "image/gif"]

/-- The message of the alert of line 44. -/
def sizeErrorMessage : String := "O arquivo é muito grande. O tamanho máximo é 16MB."

/-- The message of the alert of line 50. -/
def typeErrorMessage : String := "Tipo de arquivo não suportado. Use apenas JPEG, PNG ou GIF."

/-- The assignment `input.value = ''` on a file input: the setter empties the
list of selected files, and the value, which is read off the first selected
file, is the empty string afterwards. -/
def clearValue (input : HTMLInputElement) : HTMLInputElement :=
  { input with files := [], value := "" }

/-- The rejecting branch shared by lines 44-46 and 50-52: `alert(message)`,
then `input.value = ''`, then `return false`. -/
def reject (input : HTMLInputElement) (message : String) : UploadOutcome :=
  { result := false
    input := clearValue input
    effects := [Effect.alert message, Effect.setValue ""] }

/-- The function `validateImageUpload(input)`.  `input.files[0]` is the head of
the file list, `undefined` (falsy) when the list is empty. -/
def validateImageUpload (input : HTMLInputElement) : UploadOutcome :=
  match input.files.head? with
  | some file =>
    if file.size > maxSize then
      reject input sizeErrorMessage
    else if !allowedTypes.contains file.type then
      reject input typeErrorMessage
    else
      { result := true, input := input, effects := [] }
  | none => { result := true, input := input, effects := [] }

/-- The alerts among a list of actions. -/
def alertsOf (effects : List Effect) : List String :=
  effects.filterMap fun
    | Effect.alert m => some m
    | Effect.setValue _ => none

/-! ## Events -/

/-- A method invoked on an event object. -/
inductive EventCall where
  | preventDefault
  | stopPropagation
deriving DecidableEq, Repr

/-- A cancelable DOM event (`click`, `submit`): its two flags and the methods
invoked on it so far, in order. -/
structure Event where
  defaultPrevented : Bool
  propagationStopped : Bool
  calls : List EventCall
deriving DecidableEq, Repr

/-- The call `e.preventDefault()` on a cancelable event. -/
def Event.preventDefault (e : Event) : Event :=
  { e with defaultPrevented := true, calls := e.calls ++ [EventCall.preventDefault] }

/-- The call `e.stopPropagation()`. -/
def Event.stopPropagation (e : Event) : Event :=
  { e with propagationStopped := true, calls := e.calls ++ [EventCall.stopPropagation] }

/-! ## Form validation enhancement (submit listener, lines 26-32) -/

/-- A form: what `form.checkValidity()` answers (the browser's constraint
validation, taken as given) and the token set behind `form.classList`. -/
structure HTMLFormElement where
  checkValidity : Bool
  classList : List String
deriving DecidableEq, Repr

/-- The method `DOMTokenList.add(token)`: the token is appended unless it is
already in the set. -/
def classListAdd (classList : List String) (token : String) : List String :=
  if token ∈ classList then classList else classList ++ [token]

/-- The listener of lines 26-32, run on a form and a submit event. -/
def submitListener (form : HTMLFormElement) (e : Event) : HTMLFormElement × Event :=
  let e := if !form.checkValidity then e.preventDefault.stopPropagation else e
  ({ form with classList := classListAdd form.classList "was-validated" }, e)

/-! ## Documents and selector lookup -/

/-- An element: its tag, its `id` (the empty string when it has none) and its
classes. -/
structure Element where
  tag : String
  id : String
  classList : List String
deriving DecidableEq, Repr

/-- A document, as its elements in tree order. -/
abbrev Document := List Element

/-- A simple selector of the fragment of CSS that is modelled. -/
inductive SimpleSelector where
  | id (name : String)
  | cls (name : String)
deriving DecidableEq, Repr

/-- ASCII letters and the underscore start a CSS name. -/
def isNameStart (c : Char) : Bool := c.isAlpha || c == '_'

/-- ASCII letters, digits, the underscore and the hyphen continue a CSS name. -/
def isNameChar (c : Char) : Bool := isNameStart c || c.isDigit || c == '-'

/-- The check "would start an identifier" of CSS Syntax, on a run of name
characters: a name-start character, or a hyphen followed by a name-start
character or a second hyphen. -/
def startsIdent : List Char → Bool
  | [] => false
  | '-' :: [] => false
  | '-' :: c :: _ => isNameStart c || c == '-'
  | c :: _ => isNameStart c

/-- Parses a compound selector made of `#name` and `.name` parts.  `none` is a
parse failure.  The first argument bounds the number of parts. -/
def parseCompound : Nat → List Char → Option (List SimpleSelector)
  | 0, _ => none
  | _ + 1, [] => some []
  | n + 1, '#' :: rest =>
    if startsIdent (rest.takeWhile isNameChar) then
      (parseCompound n (rest.dropWhile isNameChar)).map
        (SimpleSelector.id (String.mk (rest.takeWhile isNameChar)) :: ·)
    else none
  | n + 1, '.' :: rest =>
    if startsIdent (rest.takeWhile isNameChar) then
      (parseCompound n (rest.dropWhile isNameChar)).map
        (SimpleSelector.cls (String.mk (rest.takeWhile isNameChar)) :: ·)
    else none
  | _ + 1, _ :: _ => none

/-- Whether an element matches one simple selector (no-quirks mode: names are
compared exactly). -/
def SimpleSelector.matchesElement (el : Element) : SimpleSelector → Bool
  | SimpleSelector.id name => el.id == name
  | SimpleSelector.cls name => el.classList.contains name

/-- What `document.querySelector` does with its argument. -/
inductive LookupResult where
  | element (el : Element)
  | null
  | invalidSelector
deriving DecidableEq, Repr

/-- The characters of the modelled fragment of CSS. -/
def inFragment (c : Char) : Bool := isNameChar c || c == '#' || c == '.'

/-- The method `document.querySelector(selectors)` on the fragment of CSS made
of ASCII compound selectors of `#id` and `.class` parts: the first element in
tree order that matches every part, `null` when there is none, a `SyntaxError`
when the string is not a selector.  Strings outside the fragment (other
characters, or a leading type selector) are not modelled: the answer is `none`. -/
def querySelector (doc : Document) (selectors : String) : Option LookupResult :=
  match selectors.toList with
  | [] => some LookupResult.invalidSelector
  | c :: cs =>
    if (c == '#' || c == '.') && cs.all inFragment then
      match parseCompound ((c :: cs).length + 1) (c :: cs) with
      | none => some LookupResult.invalidSelector
      | some parts =>
        match doc.find? (fun el => parts.all (SimpleSelector.matchesElement el)) with
        | some el => some (LookupResult.element el)
        | none => some LookupResult.null
    else none

/-! ## Smooth scrolling (click listener, lines 3-8) -/

/-- An exception thrown out of a listener. -/
inductive JSError where
  | typeError
  | domSyntaxError
deriving DecidableEq, Repr

/-- How a listener ends. -/
inductive Completion where
  | normal
  | throw (error : JSError)
deriving DecidableEq, Repr

/-- What a click leaves behind: the event, the `scrollIntoView` calls made
(target and `behavior` option) and how the listener ended. -/
structure ClickOutcome where
  event : Event
  scrolls : List (Element × String)
  completion : Completion
deriving DecidableEq, Repr

/-- Lines 5-7 after the lookup: `scrollIntoView` on an element, a `TypeError`
on `null`, and the lookup's own `SyntaxError` propagated. -/
def scrollTo (e : Event) : LookupResult → ClickOutcome
  | LookupResult.element el =>
    { event := e, scrolls := [(el, "smooth")], completion := Completion.normal }
  | LookupResult.null =>
    { event := e, scrolls := [], completion := Completion.throw JSError.typeError }
  | LookupResult.invalidSelector =>
    { event := e, scrolls := [], completion := Completion.throw JSError.domSyntaxError }

/-- The listener of lines 3-8, for a click on an anchor whose `href` attribute
is `href`.  The answer is `none` only where `querySelector` is not modelled. -/
def clickListener (doc : Document) (href : String) (e : Event) : Option ClickOutcome :=
  let e := e.preventDefault
  (querySelector doc href).map (scrollTo e)

/-! ### The listener on every href

`querySelector` above answers on the ASCII fragment only.  Below, what the
browser's selector engine does with the other strings is a parameter, so that
the listener is defined on every href. -/

/-- Whether an element of a document matches a selector, as the browser
decides it. -/
abbrev Matcher := Document → Element → Bool

/-- The browser's selector engine on the strings outside the modelled
fragment: `none` for a string that is not a valid selector, otherwise the
matching relation of the selector. -/
abbrev SelectorEngine := String → Option Matcher

/-- A selector string after parsing. -/
inductive Selector where
  | invalid
  | compound (parts : List SimpleSelector)
  | other (matcher : Matcher)

/-- Parsing of a selector string: as in `querySelector` on the modelled
fragment, by the engine elsewhere. -/
def selectorOf (engine : SelectorEngine) (selectors : String) : Selector :=
  match selectors.toList with
  | [] => Selector.invalid
  | c :: cs =>
    if (c == '#' || c == '.') && cs.all inFragment then
      match parseCompound ((c :: cs).length + 1) (c :: cs) with
      | none => Selector.invalid
      | some parts => Selector.compound parts
    else
      match engine selectors with
      | none => Selector.invalid
      | some matcher => Selector.other matcher

/-- Whether the string parsed to a selector at all. -/
def Selector.isValid : Selector → Bool
  | Selector.invalid => false
  | Selector.compound _ => true
  | Selector.other _ => true

/-- Whether an element of a document matches a parsed selector; an invalid
selector matches nothing. -/
def Selector.matchesIn (doc : Document) (el : Element) : Selector → Bool
  | Selector.invalid => false
  | Selector.compound parts => parts.all (SimpleSelector.matchesElement el)
  | Selector.other matcher => matcher doc el

/-- The method `document.querySelector(selectors)` on every string: a
`SyntaxError` when the string is not a valid selector, otherwise the first
element in tree order that matches, or `null`. -/
def querySelectorIn (engine : SelectorEngine) (doc : Document) (selectors : String) :
    LookupResult :=
  if (selectorOf engine selectors).isValid then
    match doc.find? (fun el => (selectorOf engine selectors).matchesIn doc el) with
    | some el => LookupResult.element el
    | none => LookupResult.null
  else LookupResult.invalidSelector

/-- The listener of lines 3-8 on every href: `e.preventDefault()`, then the
lookup of the href and `scrollIntoView` on what it returns. -/
def clickListenerIn (engine : SelectorEngine) (doc : Document) (href : String) (e : Event) :
    ClickOutcome :=
  let e := e.preventDefault
  scrollTo e (querySelectorIn engine doc href)

/-- Whether the document has an element whose id is the fragment of the href
(an element without an id has none). -/
def hasTarget (doc : Document) (fragment : String) : Bool :=
  fragment != "" && doc.any fun el => el.id == fragment

/-- Whether no element matches the href `'#' ++ fragment`: the document has no
element whose id is the fragment, and none of its elements matches the href
read as a selector. -/
def noElementMatches (engine : SelectorEngine) (doc : Document) (fragment : String) : Bool :=
  !hasTarget doc fragment &&
    !doc.any fun el => (selectorOf engine ("#" ++ fragment)).matchesIn doc el

/-! ## Alert auto-dismiss (lines 12-20) -/

/-- A timer registered with `setTimeout`: its delay in milliseconds and its
callback, which maps the document it runs on to the elements on which
`new bootstrap.Alert(el).close()` is invoked, in order. -/
structure Timer where
  delay : Nat
  callback : Document → List Element

/-- The call `document.querySelectorAll('.alert')`: the elements carrying the
class, in tree order. -/
def queryAlerts (doc : Document) : List Element :=
  doc.filter fun el => el.classList.contains "alert"

/-- The timer callback of lines 13-19: the `forEach` loop over the queried
elements, each step recording the `close()` call on its element. -/
def dismissAlerts (doc : Document) : List Element :=
  (queryAlerts doc).foldl (fun closed alert => closed ++ [alert]) []

/-- The `DOMContentLoaded` listener of lines 12-20: the timers it registers. -/
def alertListener : List Timer :=
  [{ delay := 5000, callback := dismissAlerts }]

/-! ## Theorems: image upload validation -/

/-- C1: a first selected file of more than 16777216 bytes, whatever its MIME
type, makes `validateImageUpload` return false, set the input's value to the
empty string, which clears the input (no file stays selected), and show
exactly the size-error alert, before the assignment. -/
theorem validateImageUpload_rejects_oversize (input : HTMLInputElement) (file : File)
    (hfile : input.files.head? = some file) (hsize : 16777216 < file.size) :
    validateImageUpload input =
      { result := false
        input := { files := [], value := "" }
        effects := [Effect.alert "O arquivo é muito grande. O tamanho máximo é 16MB.",
                    Effect.setValue ""] } := by
  have h : file.size > maxSize := by simpa [maxSize] using hsize
  simp [validateImageUpload, hfile, h, reject, clearValue, sizeErrorMessage]

/-- C1, at a file of 16 MiB + 1 byte of an allowed type. -/
theorem validateImageUpload_rejects_oversize_witness :
    validateImageUpload ⟨[⟨"foto.png", 16777217, "image/png"⟩], "foto.png"⟩ =
      { result := false
        input := ⟨[], ""⟩
        effects := [Effect.alert "O arquivo é muito grande. O tamanho máximo é 16MB.",
                    Effect.setValue ""] } :=
  validateImageUpload_rejects_oversize
    ⟨[⟨"foto.png", 16777217, "image/png"⟩], "foto.png"⟩ ⟨"foto.png", 16777217, "image/png"⟩
    rfl (by decide)

/-- C2: a first selected file of at most 16777216 bytes whose MIME type is none
of the four allowed ones makes `validateImageUpload` return false, set the
input's value to the empty string, which clears the input (no file stays
selected), and show exactly the type-error alert, before the assignment. -/
theorem validateImageUpload_rejects_type (input : HTMLInputElement) (file : File)
    (hfile : input.files.head? = some file) (hsize : file.size ≤ 16777216)
    (htype : file.type ∉ ["image/jpeg", "image/jpg", "image/png", "image/gif"]) :
    validateImageUpload input =
      { result := false
        input := { files := [], value := "" }
        effects := [Effect.alert "Tipo de arquivo não suportado. Use apenas JPEG, PNG ou GIF.",
                    Effect.setValue ""] } := by
  have h : ¬ file.size > maxSize := by simpa [maxSize] using hsize
  have ht : file.type ∉ allowedTypes := htype
  simp [validateImageUpload, hfile, h, ht, reject, clearValue, typeErrorMessage]

/-- C2, at a PDF of 1000 bytes. -/
theorem validateImageUpload_rejects_type_witness :
    validateImageUpload ⟨[⟨"doc.pdf", 1000, "application/pdf"⟩], "doc.pdf"⟩ =
      { result := false
        input := ⟨[], ""⟩
        effects := [Effect.alert "Tipo de arquivo não suportado. Use apenas JPEG, PNG ou GIF.",
                    Effect.setValue ""] } :=
  validateImageUpload_rejects_type
    ⟨[⟨"doc.pdf", 1000, "application/pdf"⟩], "doc.pdf"⟩ ⟨"doc.pdf", 1000, "application/pdf"⟩
    rfl (by decide) (by decide)

/-- C3: a first selected file of at most 16777216 bytes (16 MiB exactly
included) with one of the four allowed MIME types makes `validateImageUpload`
return true, show no alert and leave the input as it was. -/
theorem validateImageUpload_accepts (input : HTMLInputElement) (file : File)
    (hfile : input.files.head? = some file) (hsize : file.size ≤ 16777216)
    (htype : file.type ∈ ["image/jpeg", "image/jpg", "image/png", "image/gif"]) :
    validateImageUpload input = { result := true, input := input, effects := [] } := by
  have h : ¬ file.size > maxSize := by simpa [maxSize] using hsize
  have ht : file.type ∈ allowedTypes := htype
  simp [validateImageUpload, hfile, h, ht]

/-- C3, at a PNG of 1 MiB and at a GIF of exactly 16 MiB. -/
theorem validateImageUpload_accepts_witness :
    validateImageUpload ⟨[⟨"foto.png", 1048576, "image/png"⟩], "foto.png"⟩ =
        { result := true
          input := ⟨[⟨"foto.png", 1048576, "image/png"⟩], "foto.png"⟩
          effects := [] } ∧
      validateImageUpload ⟨[⟨"anim.gif", 16777216, "image/gif"⟩], "anim.gif"⟩ =
        { result := true
          input := ⟨[⟨"anim.gif", 16777216, "image/gif"⟩], "anim.gif"⟩
          effects := [] } :=
  ⟨validateImageUpload_accepts
      ⟨[⟨"foto.png", 1048576, "image/png"⟩], "foto.png"⟩ ⟨"foto.png", 1048576, "image/png"⟩
      rfl (by decide) (by decide),
    validateImageUpload_accepts
      ⟨[⟨"anim.gif", 16777216, "image/gif"⟩], "anim.gif"⟩ ⟨"anim.gif", 16777216, "image/gif"⟩
      rfl (by decide) (by decide)⟩

/-- C9: with an empty file list `validateImageUpload` returns true, shows no
alert and leaves the input as it was. -/
theorem validateImageUpload_no_selection (input : HTMLInputElement)
    (hfiles : input.files = []) :
    validateImageUpload input = { result := true, input := input, effects := [] } := by
  simp [validateImageUpload, hfiles]

/-- C9, at an input with nothing selected. -/
theorem validateImageUpload_no_selection_witness :
    validateImageUpload ⟨[], ""⟩ = { result := true, input := ⟨[], ""⟩, effects := [] } :=
  validateImageUpload_no_selection ⟨[], ""⟩ rfl

/-- C10: for every input `validateImageUpload` shows at most one alert;
returning false, having assigned the empty string to the input's value and
having shown exactly one alert are equivalent; when false is returned the
input's value is the empty string afterwards and no file stays selected, when
true is returned the input is as it was; and a file that is both over 16 MiB
and of a disallowed type gets the size-error alert only. -/
theorem validateImageUpload_result_agrees_with_effects (input : HTMLInputElement) :
    (alertsOf (validateImageUpload input).effects).length ≤ 1 ∧
    ((validateImageUpload input).result = false ↔
      Effect.setValue "" ∈ (validateImageUpload input).effects) ∧
    ((validateImageUpload input).result = false ↔
      (alertsOf (validateImageUpload input).effects).length = 1) ∧
    ((validateImageUpload input).result = true ↔
      (validateImageUpload input).effects = []) ∧
    ((validateImageUpload input).result = false →
      (validateImageUpload input).input.value = "" ∧
      (validateImageUpload input).input.files = []) ∧
    ((validateImageUpload input).result = true →
      (validateImageUpload input).input = input) ∧
    (∀ file, input.files.head? = some file → 16777216 < file.size →
      file.type ∉ ["image/jpeg", "image/jpg", "image/png", "image/gif"] →
      alertsOf (validateImageUpload input).effects =
        ["O arquivo é muito grande. O tamanho máximo é 16MB."] ∧
      "Tipo de arquivo não suportado. Use apenas JPEG, PNG ou GIF." ∉
        alertsOf (validateImageUpload input).effects) := by
  refine ⟨?_, ?_, ?_, ?_, ?_, ?_, ?_⟩
  · unfold validateImageUpload
    split <;> (try split_ifs) <;> simp [reject, alertsOf]
  · unfold validateImageUpload
    split <;> (try split_ifs) <;> simp [reject]
  · unfold validateImageUpload
    split <;> (try split_ifs) <;> simp [reject, alertsOf]
  · unfold validateImageUpload
    split <;> (try split_ifs) <;> simp [reject]
  · unfold validateImageUpload
    split <;> (try split_ifs) <;> simp [reject, clearValue]
  · unfold validateImageUpload
    split <;> (try split_ifs) <;> simp [reject]
  · intro file hfile hsize _
    have h : file.size > maxSize := by simpa [maxSize] using hsize
    simp [validateImageUpload, hfile, h, reject, sizeErrorMessage, alertsOf]

/-- C10, at a PDF of 20000000 bytes: false is returned, the value is assigned
and is empty afterwards with no file selected, and the one alert shown is the
size error. -/
theorem validateImageUpload_result_agrees_with_effects_witness :
    (validateImageUpload ⟨[⟨"big.pdf", 20000000, "application/pdf"⟩], "big.pdf"⟩).result = false ∧
    Effect.setValue "" ∈
      (validateImageUpload ⟨[⟨"big.pdf", 20000000, "application/pdf"⟩], "big.pdf"⟩).effects ∧
    (validateImageUpload ⟨[⟨"big.pdf", 20000000, "application/pdf"⟩], "big.pdf"⟩).input.value =
      "" ∧
    (validateImageUpload ⟨[⟨"big.pdf", 20000000, "application/pdf"⟩], "big.pdf"⟩).input.files =
      [] ∧
    alertsOf (validateImageUpload ⟨[⟨"big.pdf", 20000000, "application/pdf"⟩], "big.pdf"⟩).effects =
      ["O arquivo é muito grande. O tamanho máximo é 16MB."] :=
  have h := validateImageUpload_result_agrees_with_effects
    ⟨[⟨"big.pdf", 20000000, "application/pdf"⟩], "big.pdf"⟩
  have hs := (h.2.2.2.2.2.2 ⟨"big.pdf", 20000000, "application/pdf"⟩ rfl
    (by decide) (by decide)).1
  have hr := h.2.2.1.mpr (by rw [hs]; rfl)
  ⟨hr, h.2.1.mp hr, (h.2.2.2.2.1 hr).1, (h.2.2.2.2.1 hr).2, hs⟩

/-! ## Theorems: form validation enhancement -/

/-- C4: the submit listener calls `preventDefault` and `stopPropagation` on the
event exactly when `form.checkValidity()` is false: on an invalid form the
event becomes the one after both calls, on a valid form the event is untouched,
and both calls are among those the listener added if and only if the form is
invalid. -/
theorem submitListener_cancels_iff_invalid (form : HTMLFormElement) (e : Event) :
    (form.checkValidity = false →
      (submitListener form e).2 = e.preventDefault.stopPropagation ∧
      (submitListener form e).2.calls =
        e.calls ++ [EventCall.preventDefault, EventCall.stopPropagation] ∧
      (submitListener form e).2.defaultPrevented = true ∧
      (submitListener form e).2.propagationStopped = true) ∧
    (form.checkValidity = true → (submitListener form e).2 = e) ∧
    ((EventCall.preventDefault ∈ (submitListener form e).2.calls.drop e.calls.length ∧
        EventCall.stopPropagation ∈ (submitListener form e).2.calls.drop e.calls.length) ↔
      form.checkValidity = false) := by
  cases hv : form.checkValidity <;>
    simp [submitListener, hv, Event.preventDefault, Event.stopPropagation]

/-- C4, at an invalid and at a valid form with a fresh submit event. -/
theorem submitListener_cancels_iff_invalid_witness :
    (submitListener ⟨false, ["needs-validation"]⟩ ⟨false, false, []⟩).2 =
        ⟨true, true, [EventCall.preventDefault, EventCall.stopPropagation]⟩ ∧
      (submitListener ⟨true, ["needs-validation"]⟩ ⟨false, false, []⟩).2 = ⟨false, false, []⟩ :=
  ⟨((submitListener_cancels_iff_invalid ⟨false, ["needs-validation"]⟩ ⟨false, false, []⟩).1
      rfl).1,
    (submitListener_cancels_iff_invalid ⟨true, ["needs-validation"]⟩ ⟨false, false, []⟩).2.1
      rfl⟩

/-- C5: after the submit listener has run, on a valid or an invalid form, the
form's classes contain `was-validated` and every class it had before; a second
run, whatever the form's validity then, leaves the classes as they are. -/
theorem submitListener_marks_validated (form : HTMLFormElement) (e : Event) :
    "was-validated" ∈ (submitListener form e).1.classList ∧
    (∀ c, c ∈ form.classList → c ∈ (submitListener form e).1.classList) ∧
    (∀ (valid : Bool) (e2 : Event),
      (submitListener { (submitListener form e).1 with checkValidity := valid } e2).1.classList =
        (submitListener form e).1.classList) := by
  refine ⟨?_, ?_, ?_⟩
  · by_cases h : "was-validated" ∈ form.classList <;> simp [submitListener, classListAdd, h]
  · intro c hc
    by_cases h : "was-validated" ∈ form.classList <;>
      simp [submitListener, classListAdd, h, hc]
  · intro valid e2
    by_cases h : "was-validated" ∈ form.classList <;> simp [submitListener, classListAdd, h]

/-- C5, at an invalid form of class `needs-validation`, submitted twice. -/
theorem submitListener_marks_validated_witness :
    (submitListener ⟨false, ["needs-validation"]⟩ ⟨false, false, []⟩).1.classList =
        ["needs-validation", "was-validated"] ∧
      "needs-validation" ∈
        (submitListener ⟨false, ["needs-validation"]⟩ ⟨false, false, []⟩).1.classList ∧
      (submitListener
          { (submitListener ⟨false, ["needs-validation"]⟩ ⟨false, false, []⟩).1 with
            checkValidity := true } ⟨false, false, []⟩).1.classList =
        (submitListener ⟨false, ["needs-validation"]⟩ ⟨false, false, []⟩).1.classList :=
  ⟨by decide,
    (submitListener_marks_validated ⟨false, ["needs-validation"]⟩ ⟨false, false, []⟩).2.1
      "needs-validation" (by decide),
    (submitListener_marks_validated ⟨false, ["needs-validation"]⟩ ⟨false, false, []⟩).2.2
      true ⟨false, false, []⟩⟩

/-! ## Theorems: alert auto-dismiss -/

/-- The `forEach` loop of the timer callback records its elements in order. -/
theorem foldl_record (xs acc : List Element) :
    xs.foldl (fun closed alert => closed ++ [alert]) acc = acc ++ xs := by
  induction xs generalizing acc with
  | nil => simp
  | cons x xs ih => simp [ih]

/-- The timer callback closes the elements carrying the class `alert`, in tree
order. -/
theorem dismissAlerts_eq (doc : Document) :
    dismissAlerts doc = doc.filter fun el => el.classList.contains "alert" := by
  simp [dismissAlerts, queryAlerts, foldl_record]

/-- C8: the `DOMContentLoaded` listener registers one timer, of 5000 ms; its
callback, run on a document, invokes the dismiss operation on the elements
carrying the class `alert` in tree order, once per such element and never on
another element, so every alert element of the document is dismissed. -/
theorem alertListener_dismisses_all :
    alertListener.map Timer.delay = [5000] ∧
    ∀ doc : Document,
      alertListener.map (fun t => t.callback doc) =
        [doc.filter fun el => el.classList.contains "alert"] ∧
      (∀ el, (dismissAlerts doc).count el =
        if "alert" ∈ el.classList then doc.count el else 0) ∧
      (∀ el, el ∈ doc → "alert" ∈ el.classList → el ∈ dismissAlerts doc) ∧
      (doc.Nodup → ∀ el, el ∈ doc → "alert" ∈ el.classList →
        (dismissAlerts doc).count el = 1) := by
  refine ⟨rfl, fun doc => ⟨?_, ?_, ?_, ?_⟩⟩
  · simp [alertListener, dismissAlerts_eq]
  · intro el
    rw [dismissAlerts_eq]
    by_cases h : "alert" ∈ el.classList
    · rw [if_pos h, List.count_filter (by simpa using h)]
    · rw [if_neg h, List.count_eq_zero]
      intro hmem
      exact h (by simpa using (List.mem_filter.mp hmem).2)
  · intro el hel hcls
    rw [dismissAlerts_eq]
    simp [hel, hcls]
  · intro hnd el hel hcls
    rw [dismissAlerts_eq, List.count_filter (by simpa using hcls)]
    exact List.count_eq_one_of_mem hnd hel

/-- C8, at a page with one alert banner between two other elements. -/
theorem alertListener_dismisses_all_witness :
    alertListener.map (fun t => t.callback
        [⟨"nav", "menu", ["navbar"]⟩, ⟨"div", "", ["alert", "alert-success"]⟩,
          ⟨"form", "login", []⟩]) =
      [[⟨"div", "", ["alert", "alert-success"]⟩]] ∧
    (dismissAlerts
        [⟨"nav", "menu", ["navbar"]⟩, ⟨"div", "", ["alert", "alert-success"]⟩,
          ⟨"form", "login", []⟩]).count ⟨"div", "", ["alert", "alert-success"]⟩ = 1 :=
  ⟨by
      rw [(alertListener_dismisses_all.2 _).1]
      decide,
    (alertListener_dismisses_all.2
        [⟨"nav", "menu", ["navbar"]⟩, ⟨"div", "", ["alert", "alert-success"]⟩,
          ⟨"form", "login", []⟩]).2.2.2
      (by decide) ⟨"div", "", ["alert", "alert-success"]⟩ (by decide) (by decide)⟩

/-! ## Theorems: smooth scrolling -/

/-- On a run of name characters that starts an identifier, `#name` parses to the
single ID selector of that name. -/
theorem parseCompound_hash_ident (n : Nat) (name : List Char)
    (hchars : name.all isNameChar = true) (hstart : startsIdent name = true) :
    parseCompound (n + 2) ('#' :: name) = some [SimpleSelector.id (String.mk name)] := by
  have htake : name.takeWhile isNameChar = name := by
    rw [List.takeWhile_eq_self_iff]
    simpa using hchars
  have hdrop : name.dropWhile isNameChar = [] := by
    rw [List.dropWhile_eq_nil_iff]
    simpa using hchars
  simp [parseCompound, htake, hdrop, hstart]

/-- Where the fragment of the href is an ASCII CSS identifier, the lookup of
`'#' ++ fragment` finds the first element in tree order whose id is the
fragment, and the click scrolls it into view smoothly; with no such element the
lookup is `null` and the listener throws a `TypeError`. -/
theorem clickListener_ident_fragment (doc : Document) (fragment : String) (e : Event)
    (hchars : fragment.toList.all isNameChar = true)
    (hstart : startsIdent fragment.toList = true) :
    clickListener doc ("#" ++ fragment) e =
      some (match doc.find? (fun el => el.id == fragment) with
        | some el =>
          { event := e.preventDefault, scrolls := [(el, "smooth")],
            completion := Completion.normal }
        | none =>
          { event := e.preventDefault, scrolls := [],
            completion := Completion.throw JSError.typeError }) := by
  have hlist : ("#" ++ fragment).toList = '#' :: fragment.toList := by
    simp [String.toList]
  have hfrag : fragment.toList.all inFragment = true := by
    rw [List.all_eq_true] at hchars ⊢
    intro c hc
    simp [inFragment, hchars c hc]
  have hparse := parseCompound_hash_ident fragment.toList.length fragment.toList hchars hstart
  simp only [clickListener, querySelector, hlist]
  simp only [List.length_cons, hfrag, hparse]
  cases hfind : doc.find? (fun el => el.id == fragment) <;>
    simp [SimpleSelector.matchesElement, hfind, scrollTo]

/-- The case `href="#section"` with an element of id `section`: the click is
cancelled and that element is scrolled into view smoothly. -/
theorem clickListener_section :
    clickListener [⟨"a", "", []⟩, ⟨"div", "section", ["container"]⟩] "#section"
        ⟨false, false, []⟩ =
      some { event := ⟨true, false, [EventCall.preventDefault]⟩
             scrolls := [(⟨"div", "section", ["container"]⟩, "smooth")]
             completion := Completion.normal } :=
  clickListener_ident_fragment [⟨"a", "", []⟩, ⟨"div", "section", ["container"]⟩] "section"
    ⟨false, false, []⟩ (by decide) (by decide)

/-- The bound given to `parseCompound` never runs out: any two bounds above the
length of the input give the same parse. -/
theorem parseCompound_fuel (n : Nat) :
    ∀ (m : Nat) (cs : List Char), cs.length < n → cs.length < m →
      parseCompound n cs = parseCompound m cs := by
  induction n with
  | zero => intro m cs h; omega
  | succ n ih =>
    intro m cs hn hm
    cases m with
    | zero => omega
    | succ m =>
      cases cs with
      | nil => simp [parseCompound]
      | cons c rest =>
        have hlen : (rest.dropWhile isNameChar).length ≤ rest.length :=
          (List.dropWhile_sublist isNameChar).length_le
        simp only [List.length_cons] at hn hm
        have hrec := ih m (rest.dropWhile isNameChar) (by omega) (by omega)
        by_cases h1 : c = '#'
        · subst h1
          simp only [parseCompound, hrec]
        · by_cases h2 : c = '.'
          · subst h2
            simp only [parseCompound, hrec]
          · unfold parseCompound
            split <;> simp_all

/-- C6 fails on the code: with `<h2 id="2020">` in the document, a click on
`<a href="#2020">` makes the lookup throw a `SyntaxError`, and with
`<section id="faq.intro">` a click on `<a href="#faq.intro">` finds `null` and throws a
`TypeError`; in both, `preventDefault` has been called and nothing is scrolled,
although an element whose id equals the fragment exists. -/
theorem clickListener_misses_existing_target :
    (clickListener [⟨"a", "", []⟩, ⟨"h2", "2020", []⟩] "#2020" ⟨false, false, []⟩ =
        some { event := ⟨true, false, [EventCall.preventDefault]⟩, scrolls := [],
               completion := Completion.throw JSError.domSyntaxError } ∧
      (⟨"h2", "2020", []⟩ : Element) ∈ [⟨"a", "", []⟩, ⟨"h2", "2020", []⟩] ∧
      "#2020" = "#" ++ (⟨"h2", "2020", []⟩ : Element).id) ∧
    (clickListener [⟨"a", "", []⟩, ⟨"section", "faq.intro", []⟩] "#faq.intro" ⟨false, false, []⟩ =
        some { event := ⟨true, false, [EventCall.preventDefault]⟩, scrolls := [],
               completion := Completion.throw JSError.typeError } ∧
      (⟨"section", "faq.intro", []⟩ : Element) ∈
        [⟨"a", "", []⟩, ⟨"section", "faq.intro", []⟩] ∧
      "#faq.intro" = "#" ++ (⟨"section", "faq.intro", []⟩ : Element).id) := by
  decide

/-- Where `querySelector` answers, `querySelectorIn` gives the same answer,
whatever the engine. -/
theorem querySelectorIn_of_querySelector (engine : SelectorEngine) (doc : Document)
    (selectors : String) (r : LookupResult) (h : querySelector doc selectors = some r) :
    querySelectorIn engine doc selectors = r := by
  unfold querySelector at h
  unfold querySelectorIn selectorOf
  cases hl : selectors.toList with
  | nil =>
    rw [hl] at h
    simp only [Option.some.injEq] at h
    simp [Selector.isValid, h]
  | cons c cs =>
    rw [hl] at h
    by_cases hg : ((c == '#' || c == '.') && cs.all inFragment) = true
    · simp only [hg, if_true] at h ⊢
      cases hp : parseCompound ((c :: cs).length + 1) (c :: cs) with
      | none =>
        rw [hp] at h
        simp only [Option.some.injEq] at h
        simp [Selector.isValid, h]
      | some parts =>
        rw [hp] at h
        simp only [Selector.isValid, Selector.matchesIn, if_true]
        cases hf : doc.find? (fun el => parts.all (SimpleSelector.matchesElement el)) with
        | none =>
          simp only [hf, Option.some.injEq] at h
          simpa using h
        | some el =>
          simp only [hf, Option.some.injEq] at h
          simpa using h
    · simp [hg] at h

/-- Where `clickListener` answers, `clickListenerIn` ends the same way, whatever
the engine. -/
theorem clickListenerIn_of_clickListener (engine : SelectorEngine) (doc : Document)
    (href : String) (e : Event) (o : ClickOutcome) (h : clickListener doc href e = some o) :
    clickListenerIn engine doc href e = o := by
  unfold clickListener at h
  cases hq : querySelector doc href with
  | none => simp [hq] at h
  | some r =>
    simp only [hq, Option.map_some', Option.some.injEq] at h
    simp [clickListenerIn, querySelectorIn_of_querySelector engine doc href r hq, h]

/-- C7 as stated fails at `href="#"`: no element matches, yet the lookup does
not yield `null`; `querySelector` itself throws a `SyntaxError`, which is what
the listener ends with, and `scrollIntoView` is never reached. -/
theorem clickListener_bare_hash_not_null :
    (∀ engine, noElementMatches engine [⟨"a", "", []⟩, ⟨"div", "top", []⟩] "" = true ∧
      querySelectorIn engine [⟨"a", "", []⟩, ⟨"div", "top", []⟩] "#" ≠ LookupResult.null) ∧
    (∀ el, querySelector [⟨"a", "", []⟩, ⟨"div", "top", []⟩] "#" ≠
        some (LookupResult.element el)) ∧
    querySelector [⟨"a", "", []⟩, ⟨"div", "top", []⟩] "#" ≠ some LookupResult.null ∧
    querySelector [⟨"a", "", []⟩, ⟨"div", "top", []⟩] "#" =
      some LookupResult.invalidSelector ∧
    clickListener [⟨"a", "", []⟩, ⟨"div", "top", []⟩] "#" ⟨false, false, []⟩ =
      some { event := ⟨true, false, [EventCall.preventDefault]⟩, scrolls := [],
             completion := Completion.throw JSError.domSyntaxError } := by
  have h : querySelector [⟨"a", "", []⟩, ⟨"div", "top", []⟩] "#" =
      some LookupResult.invalidSelector := by decide
  refine ⟨?_, ?_, ?_, h, by decide⟩
  · intro engine
    have hs : selectorOf engine "#" = Selector.invalid := rfl
    refine ⟨by simp [noElementMatches, hasTarget, hs, Selector.matchesIn], ?_⟩
    rw [querySelectorIn_of_querySelector engine _ "#" _ h]
    simp
  · intro el
    rw [h]
    simp
  · rw [h]
    simp

/-- The hypothesis of the amended C7 leaves out the documents that do hold the
target: with `<h2 id="2020">` present it fails at the fragment `2020`. -/
theorem noElementMatches_excludes_existing_target (engine : SelectorEngine) :
    noElementMatches engine [⟨"a", "", []⟩, ⟨"h2", "2020", []⟩] "2020" = false := by
  simp [noElementMatches, hasTarget]

/-- C7, amended: for every href `'#' ++ fragment`, on a document with no
element whose id is the fragment and no element matching the href as a
selector, the click listener throws, after `preventDefault` has been called on
the event and without any scroll: where the href is a valid selector the lookup
yields `null` and the call of `scrollIntoView` on it is a `TypeError`, where it
is not (as for `href="#"`) the lookup itself throws a `SyntaxError`. -/
theorem clickListenerIn_throws_without_target (engine : SelectorEngine) (doc : Document)
    (fragment : String) (e : Event) (hnone : noElementMatches engine doc fragment = true) :
    querySelectorIn engine doc ("#" ++ fragment) =
      (if (selectorOf engine ("#" ++ fragment)).isValid then LookupResult.null
       else LookupResult.invalidSelector) ∧
    clickListenerIn engine doc ("#" ++ fragment) e =
      { event := { e with defaultPrevented := true
                          calls := e.calls ++ [EventCall.preventDefault] }
        scrolls := []
        completion := Completion.throw
          (if (selectorOf engine ("#" ++ fragment)).isValid then JSError.typeError
           else JSError.domSyntaxError) } := by
  have hfind : doc.find? (fun el => (selectorOf engine ("#" ++ fragment)).matchesIn doc el) =
      none := by
    rw [List.find?_eq_none]
    intro el hel hm
    simp only [noElementMatches, Bool.and_eq_true, Bool.not_eq_true', List.any_eq_false] at hnone
    exact hnone.2 el hel hm
  have hq : querySelectorIn engine doc ("#" ++ fragment) =
      (if (selectorOf engine ("#" ++ fragment)).isValid then LookupResult.null
       else LookupResult.invalidSelector) := by
    simp only [querySelectorIn, hfind]
  refine ⟨hq, ?_⟩
  simp only [clickListenerIn, hq]
  cases (selectorOf engine ("#" ++ fragment)).isValid <;>
    simp [scrollTo, Event.preventDefault]

/-- C7 amended, on a document without the target: at `href="#missing"` the
lookup is `null` and a `TypeError` is thrown, at `href="#"` the lookup throws a
`SyntaxError`, and at `href="#seção"`, which the engine takes as the ID
selector of `seção`, the lookup is `null` again. -/
theorem clickListenerIn_throws_without_target_witness :
    clickListenerIn (fun _ => none) [⟨"a", "", []⟩, ⟨"div", "top", []⟩] ("#" ++ "missing")
        ⟨false, false, []⟩ =
      { event := ⟨true, false, [EventCall.preventDefault]⟩, scrolls := [],
        completion := Completion.throw JSError.typeError } ∧
    clickListenerIn (fun _ => none) [⟨"a", "", []⟩, ⟨"div", "top", []⟩] ("#" ++ "")
        ⟨false, false, []⟩ =
      { event := ⟨true, false, [EventCall.preventDefault]⟩, scrolls := [],
        completion := Completion.throw JSError.domSyntaxError } ∧
    clickListenerIn (fun s => if s = "#seção" then some (fun _ el => el.id == "seção") else none)
        [⟨"a", "", []⟩, ⟨"div", "top", []⟩] ("#" ++ "seção") ⟨false, false, []⟩ =
      { event := ⟨true, false, [EventCall.preventDefault]⟩, scrolls := [],
        completion := Completion.throw JSError.typeError } :=
  ⟨(clickListenerIn_throws_without_target (fun _ => none)
      [⟨"a", "", []⟩, ⟨"div", "top", []⟩] "missing" ⟨false, false, []⟩ (by decide)).2.trans
      (by decide),
    (clickListenerIn_throws_without_target (fun _ => none)
      [⟨"a", "", []⟩, ⟨"div", "top", []⟩] "" ⟨false, false, []⟩ (by decide)).2.trans
      (by decide),
    (clickListenerIn_throws_without_target
      (fun s => if s = "#seção" then some (fun _ el => el.id == "seção") else none)
      [⟨"a", "", []⟩, ⟨"div", "top", []⟩] "seção" ⟨false, false, []⟩ (by decide)).2.trans
      (by decide)⟩

end DeclaraSystem
